import Mathlib

set_option maxHeartbeats 1000000

set_option maxRecDepth 8000

/-!
Shallow embedding of the WasmBoy memory/persistence core
(`src/lib/memory/memory.js`) and proofs about its claimed properties.

The linear wasm byte memory is modelled as a total function from address to
stored value; every store into a `Uint8Array` coerces its value to a byte,
modelled as `% 256`, and a store whose index is out of bounds of the array is
silently dropped, modelled by `List.set` (which leaves the list unchanged when
the index is out of range).
-/

/-- The linear wasm byte memory (`wasmByteMemory` in the source). -/
abbrev Mem := Nat → Nat

-- MEMORY_ADDRESSES (memory.js lines 10-21)

def CARTRIDGE_RAM : Nat := 0x008400

def CARTRIDGE_ROM : Nat := 0x073800

def WASMBOY_INTERNAL_STATE_LOCATION : Nat := 0x000000

def WASMBOY_INTERNAL_STATE_SIZE : Nat := 0x000400

def GAMEBOY_MEMORY_LOCATION : Nat := 0x000400

def GAMEBOY_MEMORY_SIZE : Nat := 0x008000

/-- A JS `for (let i = 0; i < count; i++) arr[i] = f(i)` fill of a `Uint8Array`,
transcribed iteration by iteration.  The third argument is the iteration count;
iteration `n` stores `f n` (coerced to a byte) at index `n`, and the store is a
no-op when `n` is out of bounds of the array, as for a typed array. -/
def fillLoop (f : Nat → Nat) (arr : List Nat) : Nat → List Nat
  | 0 => arr
  | n + 1 => (fillLoop f arr n).set n (f n % 256)

/-- Read `n` bytes of memory starting at `base` into a fresh zero-initialised
`Uint8Array` of length `n` (the common loop shape in `memory.js`). -/
def readBytes (wasmByteMemory : Mem) (base n : Nat) : List Nat :=
  fillLoop (fun i => wasmByteMemory (base + i)) (List.replicate n 0) n

/-- `getCartridgeHeader` (memory.js lines 39-55), for a bound memory.
The source computes `headerLength = 0x014F - 0x0134` (= 27), allocates
`new Uint8Array(headerLength)`, then loops `for (i = 0; i <= headerLength; i++)`
— 28 stores, the last of which lands out of bounds and is dropped. -/
def getCartridgeHeader (wasmByteMemory : Mem) : List Nat :=
  fillLoop (fun i => wasmByteMemory (CARTRIDGE_ROM + 0x0134 + i))
    (List.replicate (0x014F - 0x0134) 0) ((0x014F - 0x0134) + 1)

/-- The cartridge-type → RAM-size chain of `getCartridgeRam`
(memory.js lines 73-95): `ramSize` starts `undefined`, the `if`/`else if`
chain may assign it, and `if (!ramSize) return false` treats both `undefined`
and `0` as falsy (no branch assigns `0`). -/
def ramSizeOfType (cartridgeType : Nat) : Option Nat :=
  if cartridgeType = 0x00 then
    none
  else
    let ramSize : Option Nat :=
      if 0x01 ≤ cartridgeType ∧ cartridgeType ≤ 0x03 then some 0x8000
      else if 0x05 ≤ cartridgeType ∧ cartridgeType ≤ 0x06 then some 0x800
      else if 0x0F ≤ cartridgeType ∧ cartridgeType ≤ 0x13 then some 0x8000
      else if 0x19 ≤ cartridgeType ∧ cartridgeType ≤ 0x1E then some 0x20000
      else none
    match ramSize with
    | none => none
    | some s => if s = 0 then none else some s

/-- `getCartridgeRam` (memory.js lines 58-105), for a bound memory:
read the cartridge type byte at `CARTRIDGE_ROM + 0x0147`, resolve the RAM
size, and return `false` (here `none`) when no size resolves, else the
`ramSize` bytes starting at `CARTRIDGE_RAM`. -/
def getCartridgeRam (wasmByteMemory : Mem) : Option (List Nat) :=
  match ramSizeOfType (wasmByteMemory (CARTRIDGE_ROM + 0x0147)) with
  | none => none
  | some ramSize => some (readBytes wasmByteMemory CARTRIDGE_RAM ramSize)

/-- Modelled from the spec (§4.3 table): the claimed `resolveRamSize`
lookup, written from the spec's words for comparison with the source's
`ramSizeOfType`. -/
def specResolveRamSize (b : Nat) : Option Nat :=
  if b = 0x00 then none
  else if 0x01 ≤ b ∧ b ≤ 0x03 then some 32768
  else if 0x05 ≤ b ∧ b ≤ 0x06 then some 2048
  else if 0x0F ≤ b ∧ b ≤ 0x13 then some 32768
  else if 0x19 ≤ b ∧ b ≤ 0x1E then some 131072
  else none

-- Basic lemmas about the loop combinators

theorem length_set_eq (l : List Nat) (i v : Nat) : (l.set i v).length = l.length :=
  List.length_set l i v

theorem fillLoop_length (f : Nat → Nat) (arr : List Nat) (n : Nat) :
    (fillLoop f arr n).length = arr.length := by
  induction n with
  | zero => rfl
  | succ n ih => simp [fillLoop, List.length_set, ih]

theorem getD_set_eq (l : List Nat) (i v : Nat) (h : i < l.length) :
    (l.set i v).getD i 0 = v := by
  induction l generalizing i with
  | nil => simp at h
  | cons a t ih =>
    cases i with
    | zero => rfl
    | succ i => simpa [List.set] using ih i (by simpa using h)

theorem getD_set_ne (l : List Nat) (i j v : Nat) (h : i ≠ j) :
    (l.set i v).getD j 0 = l.getD j 0 := by
  induction l generalizing i j with
  | nil => rfl
  | cons a t ih =>
    cases i with
    | zero =>
      cases j with
      | zero => exact absurd rfl h
      | succ j => rfl
    | succ i =>
      cases j with
      | zero => rfl
      | succ j => simpa [List.set] using ih i j (fun hij => h (by omega))

theorem fillLoop_getD (f : Nat → Nat) (arr : List Nat) (n j : Nat)
    (hj : j < arr.length) :
    (fillLoop f arr n).getD j 0 = if j < n then f j % 256 else arr.getD j 0 := by
  induction n with
  | zero => simp [fillLoop]
  | succ n ih =>
    show ((fillLoop f arr n).set n (f n % 256)).getD j 0 = _
    rcases Nat.lt_trichotomy j n with h | h | h
    · rw [getD_set_ne _ _ _ _ (by omega), ih]
      simp [h, Nat.lt_succ_of_lt h]
    · subst h
      rw [getD_set_eq _ _ _ (by rw [fillLoop_length]; exact hj)]
      simp
    · rw [getD_set_ne _ _ _ _ (by omega), ih]
      have h1 : ¬ j < n := by omega
      have h2 : ¬ j < n + 1 := by omega
      simp [h1, h2]

theorem readBytes_length (m : Mem) (base n : Nat) :
    (readBytes m base n).length = n := by
  simp [readBytes, fillLoop_length]

theorem readBytes_getD (m : Mem) (base n j : Nat) (hj : j < n) :
    (readBytes m base n).getD j 0 = m (base + j) % 256 := by
  rw [readBytes, fillLoop_getD _ _ _ _ (by simpa using hj)]
  simp [hj]

-- Save states (memory.js lines 27-36 and 108-154)

/-- The contents of a `wasmBoyMemory` sub-object of a save state.
`cartridgeRam` is `none` when it holds the `false` returned by
`getCartridgeRam` for a cartridge without battery RAM. -/
structure WasmBoyMemoryParts where
  wasmBoyInternalState : List Nat
  gameBoyMemory : List Nat
  cartridgeRam : Option (List Nat)

/-- A save state's `wasmBoyMemory` field is a JS object reference.
`Object.assign({}, WASMBOY_SAVE_STATE_SCHEMA)` (memory.js line 126) copies the
reference held in the schema, so every state built by `getSaveState` points at
the single shared `WASMBOY_SAVE_STATE_SCHEMA.wasmBoyMemory` object
(`schemaRef`); a state deserialized from storage owns its bytes (`direct`). -/
inductive MemRef where
  | schemaRef
  | direct (parts : WasmBoyMemoryParts)

/-- Resolve a `wasmBoyMemory` reference against the current contents of the
shared schema object. -/
def derefParts (schemaObject : WasmBoyMemoryParts) : MemRef → WasmBoyMemoryParts
  | MemRef.schemaRef => schemaObject
  | MemRef.direct parts => parts

/-- `WASMBOY_SAVE_STATE_SCHEMA` (memory.js lines 27-36): the shape of a save
state.  `date`, `name` and `isAuto` start `undefined` (here `none`). -/
structure SaveState where
  wasmBoyMemory : MemRef
  date : Option Nat
  name : Option String
  isAuto : Option Bool

/-- The initial contents of `WASMBOY_SAVE_STATE_SCHEMA.wasmBoyMemory`
(three empty arrays; `cartridgeRam: []`). -/
def schemaParts0 : WasmBoyMemoryParts :=
  { wasmBoyInternalState := [], gameBoyMemory := [], cartridgeRam := some [] }

/-- `getSaveState` (memory.js lines 108-134).  Takes the current contents of
the shared schema object and the current time; returns the save state together
with the new contents of the shared schema object.  The three assignments
`saveState.wasmBoyMemory.X = ...` mutate that shared object, because
`Object.assign` made only a shallow copy of the schema. -/
def getSaveState (wasmByteMemory : Mem) (schemaObject : WasmBoyMemoryParts)
    (now : Nat) : SaveState × WasmBoyMemoryParts :=
  let cartridgeRam := getCartridgeRam wasmByteMemory
  let wasmBoyInternalState :=
    readBytes wasmByteMemory WASMBOY_INTERNAL_STATE_LOCATION WASMBOY_INTERNAL_STATE_SIZE
  let gameBoyMemory :=
    readBytes wasmByteMemory GAMEBOY_MEMORY_LOCATION GAMEBOY_MEMORY_SIZE
  let _ := schemaObject
  ({ wasmBoyMemory := MemRef.schemaRef, date := some now, name := none, isAuto := none },
   { wasmBoyInternalState := wasmBoyInternalState,
     gameBoyMemory := gameBoyMemory,
     cartridgeRam := cartridgeRam })

/-- The list actually iterated over by the third loop of `loadSaveState`:
`saveState.wasmBoyMemory.cartridgeRam` when it is an array, and the empty
iteration (`false.length` is `undefined`, so `i < undefined` never holds)
when it holds `false`. -/
def ramList : Option (List Nat) → List Nat
  | none => []
  | some l => l

/-- A JS `for (let i = 0; i < count; i++) mem[base + i] = f(i)` store loop into
the linear memory; stores coerce to bytes. -/
def writeLoop (f : Nat → Nat) (base : Nat) (m : Mem) : Nat → Mem
  | 0 => m
  | n + 1 => fun a =>
      if a = base + n then f n % 256 else writeLoop f base m n a

/-- `loadSaveState` (memory.js lines 136-154): copy exactly
`WASMBOY_INTERNAL_STATE.SIZE` bytes, then exactly `GAMEBOY_MEMORY.SIZE` bytes,
then exactly `cartridgeRam.length` bytes, into the linear memory.  A read past
the end of a stored array yields `undefined`, which a `Uint8Array` store
coerces to `0` (modelled by `getD _ 0`).  The source performs no length
validation and returns `true` unconditionally. -/
def loadSaveState (wasmByteMemory : Mem) (schemaObject : WasmBoyMemoryParts)
    (saveState : SaveState) : Mem :=
  let parts := derefParts schemaObject saveState.wasmBoyMemory
  let m1 := writeLoop (fun i => parts.wasmBoyInternalState.getD i 0)
    WASMBOY_INTERNAL_STATE_LOCATION wasmByteMemory WASMBOY_INTERNAL_STATE_SIZE
  let m2 := writeLoop (fun i => parts.gameBoyMemory.getD i 0)
    GAMEBOY_MEMORY_LOCATION m1 GAMEBOY_MEMORY_SIZE
  let ram := ramList parts.cartridgeRam
  writeLoop (fun i => ram.getD i 0) CARTRIDGE_RAM m2 ram.length

-- loadCartridgeRom (memory.js lines 263-276)

/-- The ROM-copy loop of `loadCartridgeRom`: each byte is written only when it
is truthy (`if (gameBytes[i])`), so zero bytes are skipped. -/
def loadCartridgeRomLoop (gameBytes : List Nat) (m : Mem) : Nat → Mem
  | 0 => m
  | n + 1 => fun a =>
      if gameBytes.getD n 0 ≠ 0 ∧ a = CARTRIDGE_ROM + n then gameBytes.getD n 0 % 256
      else loadCartridgeRomLoop gameBytes m n a

/-- `loadCartridgeRom` (memory.js lines 263-276), restricted to its effect on
the linear memory (the subsequent `wasmInstance.exports.initialize(0)` call is
an external CPU reset, out of scope of the memory model). -/
def loadCartridgeRom (m : Mem) (gameBytes : List Nat) : Mem :=
  loadCartridgeRomLoop gameBytes m gameBytes.length

-- loadState default-index selection (memory.js lines 405-442)

/-- JS truthiness of the `isAuto` field (`undefined` is falsy). -/
def isAutoTruthy : Option Bool → Bool
  | none => false
  | some b => b

/-- Default used only to satisfy `List.getD`; the loops below never read out
of bounds. -/
def emptySaveState : SaveState :=
  { wasmBoyMemory := MemRef.direct { wasmBoyInternalState := [], gameBoyMemory := [], cartridgeRam := none },
    date := none, name := none, isAuto := none }

/-- The default-index scan of `loadState` (memory.js lines 424-430): starting
from `saveStates.length - 1`, loop `i` downwards and select the first (largest)
`i` with `!saveStates[i].isAuto`, breaking out via `i = -1`.  The second
argument is the running `saveStateIndex`; the third is `i + 1` for the current
loop variable `i`. -/
def defaultIndexLoop (saveStates : List SaveState) : Nat → Nat → Nat
  | saveStateIndex, 0 => saveStateIndex
  | saveStateIndex, i + 1 =>
    if isAutoTruthy (saveStates.getD i emptySaveState).isAuto then
      defaultIndexLoop saveStates saveStateIndex i
    else i

/-- The index actually loaded by `loadState` (memory.js lines 421-432).
The guard is `if (!saveStateIndex)`, a JS truthiness test, so both an omitted
index (`none`) and an explicit index `0` fall into the default scan. -/
def selectedSaveStateIndex (saveStateIndex : Option Nat)
    (saveStates : List SaveState) : Nat :=
  match saveStateIndex with
  | none => defaultIndexLoop saveStates (saveStates.length - 1) saveStates.length
  | some 0 => defaultIndexLoop saveStates (saveStates.length - 1) saveStates.length
  | some (n + 1) => n + 1

/-- Modelled from the spec (§4.5 default-selection policy), written from the
spec's words for comparison with the source's scan: the most recent (largest
index) entry with `isAutomatic` false, else the most recent entry. -/
def specDefaultIndex (saveStates : List SaveState) : Nat :=
  match (List.range saveStates.length).reverse.find?
      (fun i => !(isAutoTruthy (saveStates.getD i emptySaveState).isAuto)) with
  | some i => i
  | none => saveStates.length - 1

-- Crash-recovery replay in initialize (memory.js lines 210-241)

/-- A cartridge record as stored under the header key in idb; either field may
be absent on a freshly created record. -/
structure CartridgeObject where
  cartridgeRam : Option (List Nat)
  saveStates : Option (List SaveState)

/-- The `WASMBOY_UNLOAD_STORAGE` snapshot, after `JSON.parse` and re-typing in
`initialize` (memory.js lines 213-227). -/
structure UnloadSnapshot where
  header : List Nat
  cartridgeRam : List Nat
  saveState : SaveState

/-- Observable steps of the recovery path, in execution order. -/
inductive RecoveryEvent where
  | removeVolatileEntry
  | saveCartridgeRamAttempt
  | saveStateAttempt

/-- The store effect of a successful `saveCartridgeRam(header, ram)`
(memory.js lines 282-323): fetch-or-create the record, replace its
`cartridgeRam`, persist. -/
def saveCartridgeRamModel (store : Option CartridgeObject) (ram : List Nat) :
    Option CartridgeObject :=
  let cartridgeObject := store.getD { cartridgeRam := none, saveStates := none }
  some { cartridgeObject with cartridgeRam := some ram }

/-- The store effect of a successful `saveState(header, state)`
(memory.js lines 360-403): fetch-or-create the record, append to its
`saveStates`, persist. -/
def saveStateModel (store : Option CartridgeObject) (s : SaveState) :
    Option CartridgeObject :=
  let cartridgeObject := store.getD { cartridgeRam := none, saveStates := none }
  some { cartridgeObject with saveStates := some (cartridgeObject.saveStates.getD [] ++ [s]) }

/-- The recovery branch of `initialize` (memory.js lines 210-241), for the one
cartridge identity in the snapshot.  `localStorage.removeItem` runs on line 214,
immediately after the entry is read and before the replay; `ramOk` / `stateOk`
say whether the asynchronous `saveCartridgeRam` / `saveState` persist steps
succeed (`saveState` is only attempted when `saveCartridgeRam` succeeded).
Returns the final volatile entry, the final store, and the event trace. -/
def initializeRecovery (unloadStorage : Option UnloadSnapshot)
    (store : Option CartridgeObject) (ramOk stateOk : Bool) :
    Option UnloadSnapshot × Option CartridgeObject × List RecoveryEvent :=
  match unloadStorage with
  | none => (none, store, [])
  | some snap =>
    if ramOk then
      let store1 := saveCartridgeRamModel store snap.cartridgeRam
      if stateOk then
        (none, saveStateModel store1 snap.saveState,
          [RecoveryEvent.removeVolatileEntry, RecoveryEvent.saveCartridgeRamAttempt,
            RecoveryEvent.saveStateAttempt])
      else
        (none, store1,
          [RecoveryEvent.removeVolatileEntry, RecoveryEvent.saveCartridgeRamAttempt,
            RecoveryEvent.saveStateAttempt])
    else
      (none, store,
        [RecoveryEvent.removeVolatileEntry, RecoveryEvent.saveCartridgeRamAttempt])

-- Lemmas about the store loops

theorem writeLoop_lt (f : Nat → Nat) (base : Nat) (m : Mem) (n a : Nat)
    (h : a < base) : writeLoop f base m n a = m a := by
  induction n with
  | zero => rfl
  | succ n ih =>
    show (if a = base + n then f n % 256 else writeLoop f base m n a) = m a
    rw [if_neg (by omega)]
    exact ih

theorem writeLoop_ge (f : Nat → Nat) (base : Nat) (m : Mem) (n a : Nat)
    (h : base + n ≤ a) : writeLoop f base m n a = m a := by
  induction n with
  | zero => rfl
  | succ n ih =>
    show (if a = base + n then f n % 256 else writeLoop f base m n a) = m a
    rw [if_neg (by omega)]
    exact ih (by omega)

theorem writeLoop_mem (f : Nat → Nat) (base : Nat) (m : Mem) (n a : Nat)
    (h1 : base ≤ a) (h2 : a < base + n) :
    writeLoop f base m n a = f (a - base) % 256 := by
  induction n with
  | zero => omega
  | succ n ih =>
    show (if a = base + n then f n % 256 else writeLoop f base m n a) = _
    by_cases h : a = base + n
    · rw [if_pos h]
      have ha : a - base = n := by omega
      rw [ha]
    · rw [if_neg h]
      exact ih (by omega)

/-- Byte-level characterisation of `loadSaveState`: the three copy loops write
disjoint, ascending windows, so each address receives the corresponding stored
byte (padded with `0` when the stored array is shorter than the loop bound) and
every other address is untouched. -/
theorem loadSaveState_byte (m : Mem) (schemaObject : WasmBoyMemoryParts)
    (s : SaveState) (a : Nat) :
    loadSaveState m schemaObject s a =
      (if a < 0x400 then
        (derefParts schemaObject s.wasmBoyMemory).wasmBoyInternalState.getD a 0 % 256
      else if a < 0x8400 then
        (derefParts schemaObject s.wasmBoyMemory).gameBoyMemory.getD (a - 0x400) 0 % 256
      else if a < 0x8400 + (ramList (derefParts schemaObject s.wasmBoyMemory).cartridgeRam).length then
        (ramList (derefParts schemaObject s.wasmBoyMemory).cartridgeRam).getD (a - 0x8400) 0 % 256
      else m a) := by
  unfold loadSaveState
  set parts := derefParts schemaObject s.wasmBoyMemory with hparts
  by_cases h1 : a < 0x400
  · rw [if_pos h1]
    rw [writeLoop_lt _ _ _ _ _ (by simp [CARTRIDGE_RAM]; omega)]
    rw [writeLoop_lt _ _ _ _ _ (by simp [GAMEBOY_MEMORY_LOCATION]; omega)]
    rw [writeLoop_mem _ _ _ _ _ (by simp [WASMBOY_INTERNAL_STATE_LOCATION])
      (by simp [WASMBOY_INTERNAL_STATE_LOCATION, WASMBOY_INTERNAL_STATE_SIZE]; omega)]
    simp [WASMBOY_INTERNAL_STATE_LOCATION]
  · rw [if_neg h1]
    by_cases h2 : a < 0x8400
    · rw [if_pos h2]
      rw [writeLoop_lt _ _ _ _ _ (by simp [CARTRIDGE_RAM]; omega)]
      rw [writeLoop_mem _ _ _ _ _ (by simp [GAMEBOY_MEMORY_LOCATION]; omega)
        (by simp [GAMEBOY_MEMORY_LOCATION, GAMEBOY_MEMORY_SIZE]; omega)]
      simp [GAMEBOY_MEMORY_LOCATION]
    · rw [if_neg h2]
      by_cases h3 : a < 0x8400 + (ramList parts.cartridgeRam).length
      · rw [if_pos h3]
        rw [writeLoop_mem _ _ _ _ _ (by simp [CARTRIDGE_RAM]; omega)
          (by simp [CARTRIDGE_RAM]; omega)]
        simp [CARTRIDGE_RAM]
      · rw [if_neg h3]
        rw [writeLoop_ge _ _ _ _ _ (by simp [CARTRIDGE_RAM]; omega)]
        rw [writeLoop_ge _ _ _ _ _
          (by simp [GAMEBOY_MEMORY_LOCATION, GAMEBOY_MEMORY_SIZE]; omega)]
        rw [writeLoop_ge _ _ _ _ _
          (by simp [WASMBOY_INTERNAL_STATE_LOCATION, WASMBOY_INTERNAL_STATE_SIZE]; omega)]

/-- The downward scan of `loadState` equals a `find?` over the indices in
descending order, with the initial `saveStates.length - 1` as fallback. -/
theorem defaultIndexLoop_eq_find (saveStates : List SaveState) (d n : Nat) :
    defaultIndexLoop saveStates d n =
      match (List.range n).reverse.find?
          (fun i => !(isAutoTruthy (saveStates.getD i emptySaveState).isAuto)) with
      | some i => i
      | none => d := by
  induction n with
  | zero => rfl
  | succ n ih =>
    rw [List.range_succ, List.reverse_append]
    show (if isAutoTruthy (saveStates.getD n emptySaveState).isAuto then
        defaultIndexLoop saveStates d n else n) = _
    simp only [List.reverse_cons, List.reverse_nil, List.nil_append,
      List.singleton_append, List.find?_cons]
    by_cases h : isAutoTruthy (saveStates.getD n emptySaveState).isAuto
    · simp only [List.getD_eq_getElem?_getD] at h
      simp [h, ih]
    · simp only [List.getD_eq_getElem?_getD, Bool.not_eq_true] at h
      simp [h, ih]

-- Claim theorems

/-- C3: the claim says the persistence key is exactly 28 bytes covering
`CartridgeRom + 0x0134 .. 0x014F`.  The code allocates a 27-byte array
(`0x014F - 0x0134`), loops over 28 offsets, and the final store (the byte at
`0x014F`) is dropped by the out-of-bounds typed-array write: the header is 27
bytes covering `0x0134 .. 0x014E`, and a distinguished byte at `0x014F` never
appears in it. -/
theorem getCartridgeHeader_is_27_bytes :
    (∀ m : Mem, (getCartridgeHeader m).length = 27)
    ∧ 0xAB ∉ getCartridgeHeader (fun a => if a = CARTRIDGE_ROM + 0x014F then 0xAB else 0)
    ∧ (fun a => if a = CARTRIDGE_ROM + 0x014F then (0xAB : Nat) else 0)
        (CARTRIDGE_ROM + 0x014F) = 0xAB := by
  refine ⟨fun m => ?_, by decide, by decide⟩
  simp [getCartridgeHeader, fillLoop_length]

/-- C9: RAM-size resolution is a total, deterministic function of the
cartridge type byte matching the spec's table, and `getCartridgeRam` returns
`none` (not an error) exactly when the resolved size is `none`. -/
theorem ramSize_resolution_matches_table :
    (∀ b : Nat, b < 256 → ramSizeOfType b = specResolveRamSize b)
    ∧ ∀ m : Mem,
        (getCartridgeRam m = none ↔ ramSizeOfType (m (CARTRIDGE_ROM + 0x0147)) = none) := by
  constructor
  · decide
  · intro m
    cases h : ramSizeOfType (m (CARTRIDGE_ROM + 0x0147)) <;> simp [getCartridgeRam, h]

theorem ramSize_resolution_matches_table_witness :
    (0x10 : Nat) < 256 ∧ ramSizeOfType 0x10 = specResolveRamSize 0x10
    ∧ (getCartridgeRam (fun _ => 0x10) = none
        ↔ ramSizeOfType ((fun _ : Nat => (0x10 : Nat)) (CARTRIDGE_ROM + 0x0147)) = none) :=
  ⟨by decide, ramSize_resolution_matches_table.1 0x10 (by decide),
    ramSize_resolution_matches_table.2 (fun _ => 0x10)⟩

/-- C10: because `loadState` tests `if (!saveStateIndex)`, the explicit index
`0` is treated exactly like an omitted index, and the default-selection policy
is applied; on `[auto@1, manual@2, auto@3]` the selected index is `1`,
not `0`. -/
theorem loadState_index_zero_uses_default :
    (∀ saveStates : List SaveState,
      selectedSaveStateIndex (some 0) saveStates = selectedSaveStateIndex none saveStates)
    ∧ selectedSaveStateIndex (some 0)
        [⟨MemRef.direct ⟨[], [], none⟩, some 1, none, some true⟩,
         ⟨MemRef.direct ⟨[], [], none⟩, some 2, none, none⟩,
         ⟨MemRef.direct ⟨[], [], none⟩, some 3, none, some true⟩] = 1 := by
  exact ⟨fun saveStates => rfl, rfl⟩

/-- C5: with the index omitted, `loadState` selects the most recent entry
whose `isAuto` flag is not truthy, and the most recent entry when every entry
is automatic — the policy stated by `specDefaultIndex`. -/
theorem loadState_default_selection (saveStates : List SaveState)
    (hne : saveStates ≠ []) :
    selectedSaveStateIndex none saveStates = specDefaultIndex saveStates := by
  have h := defaultIndexLoop_eq_find saveStates (saveStates.length - 1) saveStates.length
  simpa [selectedSaveStateIndex, specDefaultIndex] using h

theorem loadState_default_selection_witness :
    ([⟨MemRef.direct ⟨[], [], none⟩, some 1, none, some true⟩,
      ⟨MemRef.direct ⟨[], [], none⟩, some 2, none, none⟩,
      ⟨MemRef.direct ⟨[], [], none⟩, some 3, none, some true⟩] : List SaveState) ≠ []
    ∧ selectedSaveStateIndex none
        [⟨MemRef.direct ⟨[], [], none⟩, some 1, none, some true⟩,
         ⟨MemRef.direct ⟨[], [], none⟩, some 2, none, none⟩,
         ⟨MemRef.direct ⟨[], [], none⟩, some 3, none, some true⟩]
      = specDefaultIndex
        [⟨MemRef.direct ⟨[], [], none⟩, some 1, none, some true⟩,
         ⟨MemRef.direct ⟨[], [], none⟩, some 2, none, none⟩,
         ⟨MemRef.direct ⟨[], [], none⟩, some 3, none, some true⟩]
    ∧ selectedSaveStateIndex none
        [⟨MemRef.direct ⟨[], [], none⟩, some 1, none, some true⟩,
         ⟨MemRef.direct ⟨[], [], none⟩, some 2, none, none⟩,
         ⟨MemRef.direct ⟨[], [], none⟩, some 3, none, some true⟩] = 1 :=
  ⟨by simp, loadState_default_selection _ (by simp), rfl⟩

-- Small unfolding lemmas, used to rewrite purely syntactically

theorem parts_internal (x y : List Nat) (z : Option (List Nat)) :
    ({ wasmBoyInternalState := x, gameBoyMemory := y, cartridgeRam := z }
      : WasmBoyMemoryParts).wasmBoyInternalState = x := rfl

theorem parts_gameBoy (x y : List Nat) (z : Option (List Nat)) :
    ({ wasmBoyInternalState := x, gameBoyMemory := y, cartridgeRam := z }
      : WasmBoyMemoryParts).gameBoyMemory = y := rfl

theorem parts_ram (x y : List Nat) (z : Option (List Nat)) :
    ({ wasmBoyInternalState := x, gameBoyMemory := y, cartridgeRam := z }
      : WasmBoyMemoryParts).cartridgeRam = z := rfl

theorem saveState_mem_field (w : MemRef) (d : Option Nat) (nm : Option String)
    (ia : Option Bool) :
    ({ wasmBoyMemory := w, date := d, name := nm, isAuto := ia }
      : SaveState).wasmBoyMemory = w := rfl

theorem derefParts_schemaRef (schemaObject : WasmBoyMemoryParts) :
    derefParts schemaObject MemRef.schemaRef = schemaObject := rfl

theorem derefParts_direct (schemaObject p : WasmBoyMemoryParts) :
    derefParts schemaObject (MemRef.direct p) = p := rfl

theorem ramList_none : ramList none = [] := rfl

theorem ramList_some (l : List Nat) : ramList (some l) = l := rfl

theorem getSaveState_ref (m : Mem) (schemaObject : WasmBoyMemoryParts) (now : Nat) :
    (getSaveState m schemaObject now).1.wasmBoyMemory = MemRef.schemaRef := rfl

theorem getSaveState_snd (m : Mem) (schemaObject : WasmBoyMemoryParts) (now : Nat) :
    (getSaveState m schemaObject now).2 =
      { wasmBoyInternalState :=
          readBytes m WASMBOY_INTERNAL_STATE_LOCATION WASMBOY_INTERNAL_STATE_SIZE,
        gameBoyMemory := readBytes m GAMEBOY_MEMORY_LOCATION GAMEBOY_MEMORY_SIZE,
        cartridgeRam := getCartridgeRam m } := rfl

/-- The state built by `getSaveState` references the schema object, whose new
contents are the three regions just read. -/
theorem getSaveState_parts (m : Mem) (schemaObject : WasmBoyMemoryParts) (now : Nat) :
    derefParts (getSaveState m schemaObject now).2
        (getSaveState m schemaObject now).1.wasmBoyMemory =
      { wasmBoyInternalState :=
          readBytes m WASMBOY_INTERNAL_STATE_LOCATION WASMBOY_INTERNAL_STATE_SIZE,
        gameBoyMemory := readBytes m GAMEBOY_MEMORY_LOCATION GAMEBOY_MEMORY_SIZE,
        cartridgeRam := getCartridgeRam m } := rfl

theorem getCartridgeRam_none (m : Mem)
    (h : ramSizeOfType (m (CARTRIDGE_ROM + 0x0147)) = none) :
    getCartridgeRam m = none := by
  simp only [getCartridgeRam, h]

theorem getCartridgeRam_some (m : Mem) (sz : Nat)
    (h : ramSizeOfType (m (CARTRIDGE_ROM + 0x0147)) = some sz) :
    getCartridgeRam m = some (readBytes m CARTRIDGE_RAM sz) := by
  simp only [getCartridgeRam, h]

/-- C2: decoding the save state produced by encoding a memory restores every
byte of the linear memory — in particular the `InternalState`,
`EmulatedMemory` and `CartridgeRam` regions are byte-for-byte unchanged — for
any byte-valued memory, whatever the cartridge type byte resolves to. -/
theorem saveState_roundtrip (m : Mem) (schemaObject : WasmBoyMemoryParts)
    (now : Nat) (hm : ∀ x, m x < 256) (a : Nat) :
    loadSaveState m (getSaveState m schemaObject now).2
      (getSaveState m schemaObject now).1 a = m a := by
  have hma := hm a
  rw [loadSaveState_byte, getSaveState_parts, parts_internal, parts_gameBoy, parts_ram]
  split_ifs with h1 h2 h3
  · rw [readBytes_getD m _ _ a (by simp only [WASMBOY_INTERNAL_STATE_SIZE]; omega)]
    simp only [WASMBOY_INTERNAL_STATE_LOCATION, Nat.zero_add]
    omega
  · rw [readBytes_getD m _ _ (a - 0x400) (by simp only [GAMEBOY_MEMORY_SIZE]; omega)]
    have heq : GAMEBOY_MEMORY_LOCATION + (a - 0x400) = a := by
      simp only [GAMEBOY_MEMORY_LOCATION]; omega
    rw [heq]
    omega
  · rcases hr : ramSizeOfType (m (CARTRIDGE_ROM + 0x0147)) with _ | sz
    · rw [getCartridgeRam_none m hr, ramList_none, List.length_nil] at h3
      omega
    · rw [getCartridgeRam_some m sz hr, ramList_some] at h3 ⊢
      rw [readBytes_length] at h3
      rw [readBytes_getD m _ _ (a - 0x8400) (by omega)]
      have heq : CARTRIDGE_RAM + (a - 0x8400) = a := by
        simp only [CARTRIDGE_RAM]; omega
      rw [heq]
      omega
  · rfl

theorem saveState_roundtrip_witness :
    (∀ x, (fun _ : Nat => (1 : Nat)) x < 256)
    ∧ loadSaveState (fun _ => 1) (getSaveState (fun _ => 1) schemaParts0 0).2
        (getSaveState (fun _ => 1) schemaParts0 0).1 5 = (fun _ : Nat => (1 : Nat)) 5 :=
  ⟨fun x => by norm_num,
    saveState_roundtrip (fun _ => 1) schemaParts0 0 (fun x => by norm_num) 5⟩

/-- C8: save states are not immutable once created: `Object.assign` copies
only the reference to the schema's nested `wasmBoyMemory` object, so a second
encode overwrites the regions observed through the first state.  Encoding the
memory `fun _ => 1` and then the memory `fun _ => 2`, the first state's
`InternalState` byte 0 reads `2` (the second memory's byte) after the second
encode, though it read `1` when only the first encode had run. -/
theorem getSaveState_not_immutable :
    (derefParts
        (getSaveState (fun _ => 2) (getSaveState (fun _ => 1) schemaParts0 10).2 20).2
        (getSaveState (fun _ => 1) schemaParts0 10).1.wasmBoyMemory).wasmBoyInternalState.getD 0 0 = 2
    ∧ (derefParts (getSaveState (fun _ => 1) schemaParts0 10).2
        (getSaveState (fun _ => 1) schemaParts0 10).1.wasmBoyMemory).wasmBoyInternalState.getD 0 0 = 1
    ∧ (2 : Nat) ≠ 1 := by
  refine ⟨?_, ?_, by decide⟩
  · rw [getSaveState_ref, derefParts_schemaRef, getSaveState_snd, parts_internal]
    rw [readBytes_getD _ _ _ 0 (by simp only [WASMBOY_INTERNAL_STATE_SIZE]; omega)]
  · rw [getSaveState_ref, derefParts_schemaRef, getSaveState_snd, parts_internal]
    rw [readBytes_getD _ _ _ 0 (by simp only [WASMBOY_INTERNAL_STATE_SIZE]; omega)]

/-- C4 counterexample: `loadSaveState` raises no `SizeMismatch`.  Loading a
state whose stored `InternalState` region is empty (length 0 ≠ 0x400)
completes and silently pads: byte 0 of the region, originally 7, is
overwritten with 0. -/
theorem loadSaveState_no_size_check :
    loadSaveState (fun _ => 7) schemaParts0
      { wasmBoyMemory := MemRef.direct
          { wasmBoyInternalState := [], gameBoyMemory := [], cartridgeRam := none },
        date := none, name := none, isAuto := none } 0 = 0
    ∧ (fun _ : Nat => (7 : Nat)) 0 = 7 := by
  refine ⟨?_, rfl⟩
  rw [loadSaveState_byte, saveState_mem_field, derefParts_direct, parts_internal,
    parts_gameBoy, parts_ram]
  rw [if_pos (by norm_num : (0 : Nat) < 0x400)]
  rfl

/-- C4 (amended): `loadSaveState` performs no length validation and always
completes: it copies exactly `0x400` bytes into `InternalState` and exactly
`0x8000` bytes into `EmulatedMemory` — reading a missing index of a short
stored region as 0 (padding) and ignoring extra stored bytes (truncation) —
and copies exactly the stored `cartridgeRam` length into `CartridgeRam`; all
other bytes keep their previous value. -/
theorem loadSaveState_pads_and_truncates (m : Mem) (schemaObject : WasmBoyMemoryParts)
    (s : SaveState) (a : Nat) :
    loadSaveState m schemaObject s a =
      (if a < 0x400 then
        (derefParts schemaObject s.wasmBoyMemory).wasmBoyInternalState.getD a 0 % 256
      else if a < 0x8400 then
        (derefParts schemaObject s.wasmBoyMemory).gameBoyMemory.getD (a - 0x400) 0 % 256
      else if a < 0x8400 + (ramList (derefParts schemaObject s.wasmBoyMemory).cartridgeRam).length then
        (ramList (derefParts schemaObject s.wasmBoyMemory).cartridgeRam).getD (a - 0x8400) 0 % 256
      else m a) :=
  loadSaveState_byte m schemaObject s a

theorem replicate_getD (n i a d : Nat) (h : i < n) :
    (List.replicate n a).getD i d = a := by
  induction n generalizing i with
  | zero => omega
  | succ n ih =>
    cases i with
    | zero => rfl
    | succ i => simpa [List.replicate_succ] using ih i (by omega)

/-- C6 counterexample: writing a save state whose `EmulatedMemory` blob has
40000 bytes does not fail with `OutOfBounds`: the copy completes, the last
byte of the region receives blob byte 32767, and blob byte 32768 (value 5) is
silently dropped — the byte just past the region keeps its old value 0. -/
theorem emulatedMemory_oversized_blob_truncated :
    loadSaveState (fun _ => 0) schemaParts0
      { wasmBoyMemory := MemRef.direct
          { wasmBoyInternalState := [], gameBoyMemory := List.replicate 40000 5,
            cartridgeRam := none },
        date := none, name := none, isAuto := none } (0x400 + 32767) = 5
    ∧ loadSaveState (fun _ => 0) schemaParts0
      { wasmBoyMemory := MemRef.direct
          { wasmBoyInternalState := [], gameBoyMemory := List.replicate 40000 5,
            cartridgeRam := none },
        date := none, name := none, isAuto := none } 0x8400 = 0
    ∧ (List.replicate 40000 5).getD 32768 0 = 5 := by
  refine ⟨?_, ?_, replicate_getD 40000 32768 5 0 (by norm_num)⟩
  · rw [loadSaveState_byte, saveState_mem_field, derefParts_direct, parts_internal,
      parts_gameBoy, parts_ram]
    rw [if_neg (by norm_num), if_pos (by norm_num)]
    rw [show (0x400 + 32767 - 0x400 : Nat) = 32767 by norm_num]
    rw [replicate_getD 40000 32767 5 0 (by norm_num)]
  · rw [loadSaveState_byte, saveState_mem_field, derefParts_direct, parts_internal,
      parts_gameBoy, parts_ram, ramList_none]
    rw [if_neg (by norm_num), if_neg (by norm_num), if_neg (by norm_num)]

/-- C6 (amended): the `EmulatedMemory` copy of `loadSaveState` uses exactly the
first `0x8000` bytes of the stored blob — an oversized blob (here 40000 bytes)
is silently truncated, with no `OutOfBounds` failure — and addresses at or
beyond `CartridgeRam + cartridgeRam.length` are not modified. -/
theorem loadSaveState_truncates_oversized_blob (m : Mem)
    (schemaObject : WasmBoyMemoryParts) (s : SaveState) (i a : Nat)
    (hgb : (derefParts schemaObject s.wasmBoyMemory).gameBoyMemory.length = 40000)
    (hi : i < 0x8000)
    (ha : 0x8400 + (ramList (derefParts schemaObject s.wasmBoyMemory).cartridgeRam).length ≤ a) :
    loadSaveState m schemaObject s (0x400 + i) =
      (derefParts schemaObject s.wasmBoyMemory).gameBoyMemory.getD i 0 % 256
    ∧ loadSaveState m schemaObject s a = m a := by
  constructor
  · rw [loadSaveState_byte]
    rw [if_neg (by omega), if_pos (by omega)]
    rw [show (0x400 + i - 0x400 : Nat) = i by omega]
  · rw [loadSaveState_byte]
    rw [if_neg (by omega), if_neg (by omega), if_neg (by omega)]

theorem loadSaveState_truncates_oversized_blob_witness :
    (derefParts schemaParts0 (SaveState.wasmBoyMemory
        { wasmBoyMemory := MemRef.direct
            { wasmBoyInternalState := [], gameBoyMemory := List.replicate 40000 5,
              cartridgeRam := none },
          date := none, name := none, isAuto := none })).gameBoyMemory.length = 40000
    ∧ (0 : Nat) < 0x8000
    ∧ 0x8400 + (ramList (derefParts schemaParts0 (SaveState.wasmBoyMemory
        { wasmBoyMemory := MemRef.direct
            { wasmBoyInternalState := [], gameBoyMemory := List.replicate 40000 5,
              cartridgeRam := none },
          date := none, name := none, isAuto := none })).cartridgeRam).length ≤ 0x73800
    ∧ (loadSaveState (fun _ => 0) schemaParts0
        { wasmBoyMemory := MemRef.direct
            { wasmBoyInternalState := [], gameBoyMemory := List.replicate 40000 5,
              cartridgeRam := none },
          date := none, name := none, isAuto := none } (0x400 + 0) =
        (derefParts schemaParts0 (SaveState.wasmBoyMemory
          { wasmBoyMemory := MemRef.direct
              { wasmBoyInternalState := [], gameBoyMemory := List.replicate 40000 5,
                cartridgeRam := none },
            date := none, name := none, isAuto := none })).gameBoyMemory.getD 0 0 % 256
      ∧ loadSaveState (fun _ => 0) schemaParts0
        { wasmBoyMemory := MemRef.direct
            { wasmBoyInternalState := [], gameBoyMemory := List.replicate 40000 5,
              cartridgeRam := none },
          date := none, name := none, isAuto := none } 0x73800 = (fun _ : Nat => (0 : Nat)) 0x73800) :=
  ⟨by rw [saveState_mem_field, derefParts_direct, parts_gameBoy, List.length_replicate],
    by norm_num,
    by rw [saveState_mem_field, derefParts_direct, parts_ram, ramList_none]; norm_num,
    loadSaveState_truncates_oversized_blob (fun _ => 0) schemaParts0
      { wasmBoyMemory := MemRef.direct
          { wasmBoyInternalState := [], gameBoyMemory := List.replicate 40000 5,
            cartridgeRam := none },
        date := none, name := none, isAuto := none } 0 0x73800
      (by rw [saveState_mem_field, derefParts_direct, parts_gameBoy, List.length_replicate])
      (by norm_num)
      (by rw [saveState_mem_field, derefParts_direct, parts_ram, ramList_none]; norm_num)⟩

-- Lemmas for loadCartridgeRom

theorem loadCartridgeRomLoop_ge (gameBytes : List Nat) (m : Mem) (n i : Nat)
    (h : n ≤ i) :
    loadCartridgeRomLoop gameBytes m n (CARTRIDGE_ROM + i) = m (CARTRIDGE_ROM + i) := by
  induction n with
  | zero => rfl
  | succ n ih =>
    show (if gameBytes.getD n 0 ≠ 0 ∧ CARTRIDGE_ROM + i = CARTRIDGE_ROM + n then
        gameBytes.getD n 0 % 256
      else loadCartridgeRomLoop gameBytes m n (CARTRIDGE_ROM + i)) = _
    rw [if_neg (by rintro ⟨-, he⟩; omega)]
    exact ih (by omega)

theorem loadCartridgeRomLoop_mem (gameBytes : List Nat) (m : Mem) (n i : Nat)
    (h : i < n) :
    loadCartridgeRomLoop gameBytes m n (CARTRIDGE_ROM + i) =
      if gameBytes.getD i 0 ≠ 0 then gameBytes.getD i 0 % 256
      else m (CARTRIDGE_ROM + i) := by
  induction n with
  | zero => omega
  | succ n ih =>
    show (if gameBytes.getD n 0 ≠ 0 ∧ CARTRIDGE_ROM + i = CARTRIDGE_ROM + n then
        gameBytes.getD n 0 % 256
      else loadCartridgeRomLoop gameBytes m n (CARTRIDGE_ROM + i)) = _
    by_cases hin : i = n
    · subst hin
      by_cases hz : gameBytes.getD i 0 ≠ 0
      · rw [if_pos ⟨hz, rfl⟩, if_pos hz]
      · rw [if_neg (fun hc => hz hc.1), if_neg hz]
        exact loadCartridgeRomLoop_ge gameBytes m i i (Nat.le_refl i)
    · rw [if_neg (by rintro ⟨-, he⟩; omega)]
      exact ih (by omega)

/-- C7 counterexample: `loadCartridgeRom` skips zero bytes (`if (gameBytes[i])`
is a truthiness test), so loading the ROM `[0]` over a memory whose byte at
`CartridgeRom` is 5 leaves that byte equal to 5, not to the ROM byte 0. -/
theorem loadCartridgeRom_zero_byte_skipped :
    loadCartridgeRom (fun _ => 5) [0] (CARTRIDGE_ROM + 0) = 5
    ∧ ([0] : List Nat).getD 0 0 = 0 ∧ (5 : Nat) ≠ 0 := by
  refine ⟨?_, rfl, by decide⟩
  show (if ([0] : List Nat).getD 0 0 ≠ 0 ∧ CARTRIDGE_ROM + 0 = CARTRIDGE_ROM + 0 then
      ([0] : List Nat).getD 0 0 % 256
    else loadCartridgeRomLoop [0] (fun _ => 5) 0 (CARTRIDGE_ROM + 0)) = 5
  rw [if_neg (by rintro ⟨hz, -⟩; exact hz rfl)]
  rfl

/-- C7 (amended): after `loadCartridgeRom(bytes)`, the byte at
`CartridgeRom + i` equals `bytes[i]` for every `i < bytes.length` with
`bytes[i] ≠ 0`; positions whose ROM byte is 0 keep their prior contents,
because the copy loop tests each byte for truthiness before writing. -/
theorem loadCartridgeRom_writes_nonzero_bytes (m : Mem) (gameBytes : List Nat)
    (i : Nat) (hi : i < gameBytes.length) :
    loadCartridgeRom m gameBytes (CARTRIDGE_ROM + i) =
      if gameBytes.getD i 0 ≠ 0 then gameBytes.getD i 0 % 256
      else m (CARTRIDGE_ROM + i) :=
  loadCartridgeRomLoop_mem gameBytes m gameBytes.length i hi

theorem loadCartridgeRom_writes_nonzero_bytes_witness :
    (0 : Nat) < ([9] : List Nat).length
    ∧ loadCartridgeRom (fun _ => 5) [9] (CARTRIDGE_ROM + 0) =
        (if ([9] : List Nat).getD 0 0 ≠ 0 then ([9] : List Nat).getD 0 0 % 256
         else (fun _ : Nat => (5 : Nat)) (CARTRIDGE_ROM + 0)) :=
  ⟨by decide, loadCartridgeRom_writes_nonzero_bytes (fun _ => 5) [9] 0 (by decide)⟩

/-- C1 counterexample: with a pending volatile snapshot and a failing
`saveCartridgeRam` persist step, `initialize` has already removed the volatile
entry (its first recovery step, before any persist), so nothing is retained
for a retry: the final volatile entry is `none` and the record store is
unchanged, contradicting the claim that the entry is still present after a
failed persist step. -/
theorem initialize_recovery_deletes_before_replay :
    initializeRecovery
      (some
        { header := [1], cartridgeRam := [2],
          saveState :=
            { wasmBoyMemory :=
                MemRef.direct
                  { wasmBoyInternalState := [], gameBoyMemory := [], cartridgeRam := none },
              date := none, name := none, isAuto := some true } })
      none false true
    = (none, none,
       [RecoveryEvent.removeVolatileEntry, RecoveryEvent.saveCartridgeRamAttempt]) := rfl

/-- C1 (amended): `initialize` removes the volatile entry immediately after
reading it — the first recovery event, before either persist call — and then
replays `saveCartridgeRam` followed by `saveState`; whatever the outcome of
the persist steps, the volatile entry is gone afterwards, and when
`saveCartridgeRam` fails nothing has been persisted (so a failure loses the
snapshot instead of leaving it for retry). -/
theorem initialize_recovery_removes_volatile_first (snap : UnloadSnapshot)
    (store : Option CartridgeObject) (ramOk stateOk : Bool) :
    (initializeRecovery (some snap) store ramOk stateOk).1 = none
    ∧ (initializeRecovery (some snap) store ramOk stateOk).2.2.head? =
        some RecoveryEvent.removeVolatileEntry
    ∧ (initializeRecovery (some snap) store false stateOk).2.1 = store
    ∧ (initializeRecovery (some snap) store true true).2.1 =
        saveStateModel (saveCartridgeRamModel store snap.cartridgeRam) snap.saveState := by
  cases ramOk <;> cases stateOk <;> exact ⟨rfl, rfl, rfl, rfl⟩
